import Mathlib

/-
Shallow embedding of src/src/app/tabs/ProfileTab.tsx.

Strings are modelled as Lean strings (lists of Unicode code points); JSON
values reaching the component are modelled by a small inductive covering
exactly the shapes the handler inspects; thrown JavaScript errors are
modelled by an explicit error record carried in an Except.
-/

/-- The UserData record of ProfileTab.tsx: all fields are strings, avatar is
optional/nullable, modelled as an Option. -/
structure UserData where
  name : String
  email : String
  phone : String
  joinDate : String
  experienceLevel : String
  favoriteMethod : String
  avatar : Option String
deriving DecidableEq, Repr

/-- The keys of UserData, the possible first arguments of handleProfileUpdate. -/
inductive UserField where
  | name
  | email
  | phone
  | joinDate
  | experienceLevel
  | favoriteMethod
  | avatar
deriving DecidableEq, Repr

/-- Field projection used to state frame conditions: each field viewed as an
optional string, matching that avatar is the only nullable field. -/
def UserData.getField (d : UserData) : UserField → Option String
  | .name => some d.name
  | .email => some d.email
  | .phone => some d.phone
  | .joinDate => some d.joinDate
  | .experienceLevel => some d.experienceLevel
  | .favoriteMethod => some d.favoriteMethod
  | .avatar => d.avatar

/-- The object spread in handleProfileUpdate: copy every field of the record,
then overwrite the named field with the given string value. -/
def updateField (d : UserData) (f : UserField) (v : String) : UserData :=
  match f with
  | .name => { d with name := v }
  | .email => { d with email := v }
  | .phone => { d with phone := v }
  | .joinDate => { d with joinDate := v }
  | .experienceLevel => { d with experienceLevel := v }
  | .favoriteMethod => { d with favoriteMethod := v }
  | .avatar => { d with avatar := some v }

/-- handleProfileUpdate: builds the updated record, stores it as the new local
state, and invokes the callback on the full record when one is supplied.
Returns the new local user data together with the list of arguments passed to
the onUpdateProfile callback, in call order. -/
def handleProfileUpdate (onUpdateProfile : Option (UserData → Unit))
    (localUserData : UserData) (f : UserField) (v : String) :
    UserData × List UserData :=
  let updatedData := updateField localUserData f v
  (updatedData,
    match onUpdateProfile with
    | some _ => [updatedData]
    | none => [])

/-- Splits a character list at every character satisfying p, keeping empty
segments, as the JavaScript String.prototype.split does: the empty string
yields one empty segment, and k consecutive separators yield k+1 segments. -/
def splitBy (p : Char → Bool) : List Char → List (List Char)
  | [] => [[]]
  | c :: cs =>
    match splitBy p cs with
    | [] => [[]]
    | t :: ts => if p c then [] :: t :: ts else (c :: t) :: ts

/-- The JavaScript expression pair of indexing a string at 0 and later joining
with the empty separator: a nonempty segment contributes its first character,
an empty segment contributes nothing (its index-0 read is undefined, which
Array.prototype.join renders as the empty string). -/
def jsFirstChar : List Char → List Char
  | [] => []
  | c :: _ => [c]

/-- The JavaScript toUpperCase: the Unicode default uppercase conversion maps
each code point independently to a sequence of code points (its full uppercase
mappings are unconditional, unlike lowercasing), so it is a flatMap of a
per-code-point mapping over the string. The mapping itself is taken as a
parameter, so that nothing here depends on the content of the Unicode tables. -/
def toUpperCaseJS (upperChar : Char → List Char) (l : List Char) : List Char :=
  l.flatMap upperChar

/-- getInitials of ProfileTab.tsx, parameterized by the uppercase mapping of
the runtime: split the name on the space character, take the first character
of each segment, join, and upper-case the joined string. -/
def getInitialsFull (upperChar : Char → List Char) (name : String) : String :=
  String.mk (toUpperCaseJS upperChar
    (((splitBy (fun c => c = ' ') name.data).map jsFirstChar).flatten))

/-- getInitials of ProfileTab.tsx with the uppercase mapping instantiated to
the ASCII one: Char.toUpper agrees with the JavaScript default uppercase
conversion on every ASCII code point, and this concrete form is only ever
evaluated below on ASCII names (the default profile name). The general form
is getInitialsFull. -/
def getInitials (name : String) : String :=
  String.mk ((((splitBy (fun c => c = ' ') name.data).map jsFirstChar).flatten).map
    Char.toUpper)

/-- Modelled from the spec claim wording: the uppercase conversion of the
first character of each whitespace-separated token of the name, concatenated
in token order. Tokens are the maximal nonempty runs between whitespace
characters; the uppercase mapping is the same parameter as above. -/
def whitespaceInitialsFull (upperChar : Char → List Char) (name : String) :
    String :=
  String.mk ((((splitBy Char.isWhitespace name.data).filter
    (fun t => !t.isEmpty)).filterMap List.head?).flatMap upperChar)

/-- Modelled from the amended claim wording: the uppercase conversion of the
first character of each token separated by the space character U+0020,
concatenated in token order. -/
def spaceInitialsFull (upperChar : Char → List Char) (name : String) : String :=
  String.mk ((((splitBy (fun c => c = ' ') name.data).filter
    (fun t => !t.isEmpty)).filterMap List.head?).flatMap upperChar)

/-- A concrete uppercase mapping that agrees with the JavaScript default
uppercase conversion on every character appearing in the concrete inputs
below: the sharp s expands to SS, and ASCII characters map as in ASCII. -/
def demoUpperChar (c : Char) : List Char :=
  if c = 'ß' then ['S', 'S'] else [c.toUpper]

/-- The default userData prop value of ProfileTab. -/
def defaultUserData : UserData :=
  { name := "Juan Dela Cruz"
    email := "juan.delacruz@shroomify.com"
    phone := "+63 912 345 6789"
    joinDate := "January 2024"
    experienceLevel := "Intermediate"
    favoriteMethod := "Straw Substrate"
    avatar := none }

/-- The activity type union of ActivityItem. -/
inductive ActivityType where
  | scan
  | achievement
  | alert
deriving DecidableEq, Repr

/-- The status color union of ActivityItem. -/
inductive StatusColor where
  | green
  | yellow
  | red
  | blue
deriving DecidableEq, Repr

/-- The icon components referenced by the icon map of getActivityIcon. -/
inductive ActivityIcon where
  | Camera
  | Trophy
  | Target
deriving DecidableEq, Repr

/-- The iconMap object literal of getActivityIcon, as an association list. -/
def iconMap : List (ActivityType × ActivityIcon) :=
  [(.scan, .Camera), (.achievement, .Trophy), (.alert, .Target)]

/-- getActivityIcon: a JavaScript property read on the icon map, which may in
principle miss (yield undefined), hence the Option result. -/
def getActivityIcon (t : ActivityType) : Option ActivityIcon :=
  iconMap.lookup t

/-- The three CSS class strings of one palette entry of the color map. -/
structure ColorClasses where
  bg : String
  text : String
  iconBg : String
deriving DecidableEq, Repr

/-- The colorMap object literal of getStatusColorClasses. -/
def colorMap : List (StatusColor × ColorClasses) :=
  [(.green, { bg := "bg-green-600/20", text := "text-green-400",
              iconBg := "bg-green-600/20" }),
   (.yellow, { bg := "bg-yellow-600/20", text := "text-yellow-400",
               iconBg := "bg-yellow-600/20" }),
   (.red, { bg := "bg-red-600/20", text := "text-red-400",
            iconBg := "bg-red-600/20" }),
   (.blue, { bg := "bg-blue-600/20", text := "text-blue-400",
             iconBg := "bg-blue-600/20" })]

/-- getStatusColorClasses: a property read on the color map. -/
def getStatusColorClasses (c : StatusColor) : Option ColorClasses :=
  colorMap.lookup c

/-- The user object of a successful authentication response body, with the two
fields the handler reads. -/
structure JsonUser where
  full_name : String
  email : String
deriving DecidableEq, Repr

/-- The parsed JSON response body, covering exactly the shapes the handler
inspects: the JSON null value, or an object with an optional string error
field and an optional user object. -/
inductive JsonBody where
  | null
  | obj (error : Option String) (user : Option JsonUser)
deriving DecidableEq, Repr

/-- Outcome of awaiting response.json(): either the parse rejects with an
error message, or it yields a parsed body. -/
inductive BodyResult where
  | parseError (msg : String)
  | json (v : JsonBody)
deriving DecidableEq, Repr

/-- Outcome of awaiting fetch: either the request itself rejects with an error
message, or a response arrives carrying its ok flag and its body outcome. -/
inductive FetchResult where
  | networkError (msg : String)
  | response (ok : Bool) (body : BodyResult)
deriving DecidableEq, Repr

/-- A thrown JavaScript error as the catch clause sees it: a message string. -/
structure JsError where
  message : String
deriving DecidableEq, Repr

/-- The request record of the single fetch call: URL, method and JSON body. -/
structure RequestBody where
  id_token : String
deriving DecidableEq, Repr

/-- An outbound HTTP request as issued by fetch. -/
structure Request where
  url : String
  method : String
  body : RequestBody
deriving DecidableEq, Repr

/-- The component state the login handler touches: the local user data, the
form error message (null when absent) and the auth-loading flag. -/
structure ProfileState where
  localUserData : UserData
  formError : Option String
  isAuthLoading : Bool
deriving DecidableEq, Repr

/-- The literal fallback message of the login handler. -/
def fallbackMsg : String := "Google login failed. Please try again."

/-- Message of the TypeError thrown by reading the user property of null. -/
def nullUserMsg : String := "Cannot read properties of null (reading user)"

/-- Message of the TypeError thrown by reading full_name of undefined. -/
def undefinedFullNameMsg : String :=
  "Cannot read properties of undefined (reading full_name)"

/-- The JavaScript expression reading the optional error field of the result
and falling back when it is absent or falsy: the only falsy string is the
empty string. -/
def resultErrorOrFallback : JsonBody → String
  | .null => fallbackMsg
  | .obj err _ =>
    match err with
    | some e => if e = "" then fallbackMsg else e
    | none => fallbackMsg

/-- The display expression of the catch clause: the message of the caught
error, or the fallback when that message is falsy (empty). -/
def jsErrorDisplay (e : JsError) : String :=
  if e.message = "" then fallbackMsg else e.message

/-- The try block of handleGoogleLogin after the fetch call, evaluated against
a fetch outcome: either the new local user data on the success path, or the
thrown error on any other path. On success every field of the stored record is
listed explicitly, name and email from the response user object and the five
remaining fields copied from the prior local data. -/
def loginTryBody (d : UserData) (fr : FetchResult) : Except JsError UserData :=
  match fr with
  | .networkError msg => .error { message := msg }
  | .response ok body =>
    match body with
    | .parseError msg => .error { message := msg }
    | .json v =>
      if !ok then
        .error { message := resultErrorOrFallback v }
      else
        match v with
        | .null => .error { message := nullUserMsg }
        | .obj _ user =>
          match user with
          | none => .error { message := undefinedFullNameMsg }
          | some u =>
            .ok { name := u.full_name
                  email := u.email
                  phone := d.phone
                  joinDate := d.joinDate
                  experienceLevel := d.experienceLevel
                  favoriteMethod := d.favoriteMethod
                  avatar := d.avatar }

/-- The one request handleGoogleLogin issues: POST to /api/auth/google with
the JSON body carrying the id_token. -/
def googleRequest (idToken : String) : Request :=
  { url := "/api/auth/google", method := "POST", body := { id_token := idToken } }

/-- handleGoogleLogin: sets the loading flag, clears the form error, issues
the fetch, and runs the try/catch/finally of the source. The first component
is the outcome of the returned promise (an error value would mean an exception
propagating to the caller); the second lists the requests issued. -/
def handleGoogleLogin (s : ProfileState) (idToken : String) (fr : FetchResult) :
    Except JsError ProfileState × List Request :=
  let s1 : ProfileState := { s with isAuthLoading := true, formError := none }
  let afterTryCatch : Except JsError ProfileState :=
    match loginTryBody s1.localUserData fr with
    | .ok d => .ok { s1 with localUserData := d }
    | .error e => .ok { s1 with formError := some (jsErrorDisplay e) }
  (afterTryCatch.map (fun st => { st with isAuthLoading := false }),
   [googleRequest idToken])

/-- A concrete initial component state, used for concrete evaluations. -/
def initState : ProfileState :=
  { localUserData := defaultUserData, formError := none, isAuthLoading := false }

/-- Joining the index-0 reads with the empty separator keeps exactly the first
character of each nonempty segment. -/
theorem flatten_map_jsFirstChar (l : List (List Char)) :
    (l.map jsFirstChar).flatten
      = (l.filter (fun t => !t.isEmpty)).filterMap List.head? := by
  induction l with
  | nil => rfl
  | cons t ts ih =>
    cases t with
    | nil => simpa [jsFirstChar] using ih
    | cons c cs => simpa [jsFirstChar] using ih

/-- A list with no separator character splits into the single segment that is
the whole list. -/
theorem splitBy_eq_single (p : Char → Bool) (l : List Char)
    (h : ∀ c ∈ l, p c = false) : splitBy p l = [l] := by
  induction l with
  | nil => rfl
  | cons c cs ih =>
    have hc : p c = false := h c (by simp)
    have ih2 : splitBy p cs = [cs] := ih (fun d hd => h d (by simp [hd]))
    simp [splitBy, ih2, hc]

/-- C1: on an HTTP-ok response whose body holds a user object, the stored
local user data takes name and email from the response user and keeps phone,
joinDate, experienceLevel and avatar from the prior local state. -/
theorem googleLogin_success_frame (s : ProfileState) (t : String)
    (err : Option String) (u : JsonUser) :
    ∃ s₂, (handleGoogleLogin s t (.response true (.json (.obj err (some u))))).1
        = .ok s₂
      ∧ s₂.localUserData.name = u.full_name
      ∧ s₂.localUserData.email = u.email
      ∧ s₂.localUserData.phone = s.localUserData.phone
      ∧ s₂.localUserData.joinDate = s.localUserData.joinDate
      ∧ s₂.localUserData.experienceLevel = s.localUserData.experienceLevel
      ∧ s₂.localUserData.avatar = s.localUserData.avatar := by
  exact ⟨_, rfl, rfl, rfl, rfl, rfl, rfl, rfl⟩

/-- C2: every execution of handleGoogleLogin resolves without an exception and
with the auth-loading flag false. -/
theorem googleLogin_no_throw_loading (s : ProfileState) (t : String)
    (fr : FetchResult) :
    ∃ s₂, (handleGoogleLogin s t fr).1 = .ok s₂ ∧ s₂.isAuthLoading = false := by
  rcases fr with msg | ⟨ok, body⟩
  · exact ⟨_, rfl, rfl⟩
  · rcases body with msg | v
    · exact ⟨_, rfl, rfl⟩
    · rcases ok with _ | _
      · exact ⟨_, rfl, rfl⟩
      · rcases v with _ | ⟨e, u⟩
        · exact ⟨_, rfl, rfl⟩
        · rcases u with _ | uu
          · exact ⟨_, rfl, rfl⟩
          · exact ⟨_, rfl, rfl⟩

/-- C3 counterexample: a failing response whose error field is the empty
string displays the fallback message, not the error field value. -/
theorem googleLogin_empty_error_cex :
    (handleGoogleLogin initState "token"
        (.response false (.json (.obj (some "") none)))).1
      = .ok { localUserData := defaultUserData, formError := some fallbackMsg,
              isAuthLoading := false }
    ∧ fallbackMsg ≠ "" := ⟨rfl, by decide⟩

/-- C3 amended: on a non-ok response, a nonempty error field value is the
displayed message; an absent or empty error field displays the fixed fallback
string; no exception escapes the handler in any of these cases. -/
theorem googleLogin_error_message (s : ProfileState) (t : String)
    (u : Option JsonUser) (e : String) :
    (e ≠ "" → ∃ s₂,
      (handleGoogleLogin s t (.response false (.json (.obj (some e) u)))).1
          = .ok s₂ ∧ s₂.formError = some e)
    ∧ (∃ s₂,
      (handleGoogleLogin s t (.response false (.json (.obj none u)))).1
          = .ok s₂ ∧ s₂.formError = some fallbackMsg)
    ∧ (∃ s₂,
      (handleGoogleLogin s t (.response false (.json (.obj (some "") u)))).1
          = .ok s₂ ∧ s₂.formError = some fallbackMsg) := by
  refine ⟨fun he => ⟨_, rfl, ?_⟩, ⟨_, rfl, ?_⟩, ⟨_, rfl, ?_⟩⟩
  · simp [jsErrorDisplay, resultErrorOrFallback, he, fallbackMsg]
  · simp [jsErrorDisplay, resultErrorOrFallback, fallbackMsg]
  · simp [jsErrorDisplay, resultErrorOrFallback, fallbackMsg]

/-- C3 witness: the amended theorem applied at a concrete nonempty error. -/
theorem googleLogin_error_message_witness :
    ("boom" : String) ≠ ""
    ∧ ∃ s₂, (handleGoogleLogin initState "token2"
        (.response false (.json (.obj (some "boom") none)))).1
          = .ok s₂ ∧ s₂.formError = some "boom" := by
  refine ⟨by decide, ?_⟩
  exact (googleLogin_error_message initState "token2" none "boom").1 (by decide)

/-- The map form of an uppercase mapping that never expands a character is
the flatMap of its singleton form. -/
theorem flatMap_singleton_toUpper (l : List Char) :
    l.flatMap (fun c => [c.toUpper]) = l.map Char.toUpper := by
  induction l with
  | nil => rfl
  | cons c cs ih => simp [ih]

/-- The ASCII-instantiated getInitials is the parameterized form applied to
the mapping that upper-cases each character without expansion. -/
theorem getInitials_eq_full (name : String) :
    getInitials name = getInitialsFull (fun c => [c.toUpper]) name := by
  unfold getInitials getInitialsFull toUpperCaseJS
  rw [flatMap_singleton_toUpper]

/-- C4 counterexample: two failures of the claim at concrete inputs, under a
mapping that matches the JavaScript uppercase conversion on every character
involved. On a name containing a tab the code takes one initial for the
single space-separated segment while the whitespace-token reading yields two;
and on the single-word sharp-s name the result has two characters, not one. -/
theorem getInitials_tab_cex :
    getInitialsFull demoUpperChar "a\tb" = "A"
    ∧ whitespaceInitialsFull demoUpperChar "a\tb" = "AB"
    ∧ getInitialsFull demoUpperChar "a\tb"
        ≠ whitespaceInitialsFull demoUpperChar "a\tb"
    ∧ getInitialsFull demoUpperChar "ß" = "SS"
    ∧ (getInitialsFull demoUpperChar "ß").length ≠ 1 :=
  ⟨by decide, by decide, by decide, by decide, by decide⟩

/-- C4 amended: for every per-code-point uppercase mapping, getInitials
returns the uppercase conversion of the first character of each token
separated by the space character, concatenated in token order; a nonempty
name with no space yields exactly the uppercase conversion of its first
character, and the empty name yields the empty string. -/
theorem getInitials_spec :
    (∀ (upperChar : Char → List Char) (name : String),
        getInitialsFull upperChar name = spaceInitialsFull upperChar name)
    ∧ (∀ (upperChar : Char → List Char) (name : String), name ≠ "" →
        (∀ c ∈ name.data, c ≠ ' ') →
        ∃ c cs, name.data = c :: cs
          ∧ (getInitialsFull upperChar name).data = upperChar c)
    ∧ (∀ upperChar, getInitialsFull upperChar "" = "") := by
  refine ⟨?_, ?_, fun _ => rfl⟩
  · intro u name
    unfold getInitialsFull spaceInitialsFull toUpperCaseJS
    rw [flatten_map_jsFirstChar]
  · intro u name hne hsp
    have hsplit : splitBy (fun c => c = ' ') name.data = [name.data] :=
      splitBy_eq_single _ _ (fun c hc => by simp [hsp c hc])
    obtain ⟨c, cs, hind⟩ : ∃ c cs, name.data = c :: cs := by
      cases hd : name.data with
      | nil => exact absurd (String.ext (by rw [hd])) hne
      | cons c cs => exact ⟨c, cs, rfl⟩
    refine ⟨c, cs, hind, ?_⟩
    unfold getInitialsFull toUpperCaseJS
    rw [hsplit, hind]
    simp [jsFirstChar]

/-- C4 witness: the amended theorem applied at a concrete mapping and names. -/
theorem getInitials_spec_witness :
    getInitialsFull demoUpperChar "Juan Dela Cruz"
        = spaceInitialsFull demoUpperChar "Juan Dela Cruz"
    ∧ (("Ana" : String) ≠ ""
      ∧ ∃ c cs, ("Ana" : String).data = c :: cs
          ∧ (getInitialsFull demoUpperChar "Ana").data = demoUpperChar c) := by
  refine ⟨getInitials_spec.1 demoUpperChar "Juan Dela Cruz", by decide, ?_⟩
  exact getInitials_spec.2.1 demoUpperChar "Ana" (by decide) (by decide)

/-- C5: the state produced by handleProfileUpdate carries the new value at the
edited field and the prior value at every other field. -/
theorem handleProfileUpdate_frame (cb : Option (UserData → Unit)) (d : UserData)
    (f : UserField) (v : String) (g : UserField) :
    ((handleProfileUpdate cb d f v).1).getField g
      = if g = f then some v else d.getField g := by
  cases f <;> cases g <;>
    simp [handleProfileUpdate, updateField, UserData.getField]

/-- C6: with a callback supplied, handleProfileUpdate invokes it exactly once
with the full updated record; with none supplied, it makes no invocation. -/
theorem handleProfileUpdate_callback (k : UserData → Unit) (d : UserData)
    (f : UserField) (v : String) :
    (handleProfileUpdate (some k) d f v).2
        = [(handleProfileUpdate (some k) d f v).1]
    ∧ (handleProfileUpdate none d f v).2 = ([] : List UserData)
    ∧ (handleProfileUpdate (some k) d f v).1 = updateField d f v :=
  ⟨rfl, rfl, rfl⟩

/-- C7: the scan/green and achievement/yellow lookups yield the camera icon
with the green palette and the trophy icon with the yellow palette, and every
type and status color hits an entry of its map. -/
theorem activity_lookup_total :
    getActivityIcon .scan = some .Camera
    ∧ getStatusColorClasses .green
        = some { bg := "bg-green-600/20", text := "text-green-400",
                 iconBg := "bg-green-600/20" }
    ∧ getActivityIcon .achievement = some .Trophy
    ∧ getStatusColorClasses .yellow
        = some { bg := "bg-yellow-600/20", text := "text-yellow-400",
                 iconBg := "bg-yellow-600/20" }
    ∧ (∀ t, (getActivityIcon t).isSome = true)
    ∧ (∀ c, (getStatusColorClasses c).isSome = true) := by
  refine ⟨by decide, by decide, by decide, by decide, ?_, ?_⟩
  · intro t; cases t <;> decide
  · intro c; cases c <;> decide

/-- C8 counterexample: the default name has three space-separated tokens, so
its derived initials are JDC, not JD. -/
theorem default_initials_cex :
    defaultUserData.name = "Juan Dela Cruz"
    ∧ getInitials defaultUserData.name = "JDC"
    ∧ getInitials defaultUserData.name ≠ "JD" :=
  ⟨rfl, by decide, by decide⟩

/-- C8 amended: with no userData prop the component uses the default record
named Juan Dela Cruz, whose derived initials are JDC. -/
theorem default_initials :
    defaultUserData.name = "Juan Dela Cruz"
    ∧ getInitials defaultUserData.name = "JDC" :=
  ⟨rfl, by decide⟩

/-- C9: every execution of handleGoogleLogin issues exactly one request, a
POST to /api/auth/google whose JSON body carries the given id_token. -/
theorem googleLogin_request (s : ProfileState) (t : String) (fr : FetchResult) :
    (handleGoogleLogin s t fr).2
      = [{ url := "/api/auth/google", method := "POST",
           body := { id_token := t } }] := rfl

/-- C10: on an HTTP-ok response whose body fails to parse, is null, or lacks a
user object, the handler resolves without an exception, leaves the local user
data unchanged, and sets the form error message. -/
theorem googleLogin_bad_body (s : ProfileState) (t msg : String)
    (e : Option String) :
    (∃ s₂, (handleGoogleLogin s t (.response true (.parseError msg))).1 = .ok s₂
        ∧ s₂.localUserData = s.localUserData ∧ s₂.formError.isSome = true)
    ∧ (∃ s₂, (handleGoogleLogin s t (.response true (.json .null))).1 = .ok s₂
        ∧ s₂.localUserData = s.localUserData ∧ s₂.formError.isSome = true)
    ∧ (∃ s₂, (handleGoogleLogin s t (.response true (.json (.obj e none)))).1
          = .ok s₂
        ∧ s₂.localUserData = s.localUserData ∧ s₂.formError.isSome = true) :=
  ⟨⟨_, rfl, rfl, rfl⟩, ⟨_, rfl, rfl, rfl⟩, ⟨_, rfl, rfl, rfl⟩⟩
